import Mathlib

/-!
Shallow embedding of `src/mavros_extras/mavteleop.py` (the mavros
teleoperation script) and proofs about its input-to-control-mode mapping
engine: axis normalization, channel calibration, mode overlays, and the
four control-mode callbacks.

Python floats are modelled as rationals (`ℚ`), Python list indexing by
`pyIdx`/`pyGet`/`pySet` (a negative index counts from the end; an index out
of range raises IndexError, modelled as `none`), and raised exceptions by
`Option`/`Except`.
-/

namespace Mavteleop

/-- Python list index resolution: a negative index counts from the end of
the list; a resolved index outside `[0, len)` raises IndexError (`none`). -/
def pyIdx (len : ℕ) (i : ℤ) : Option ℕ :=
  let j : ℤ := if i < 0 then i + (len : ℤ) else i
  if 0 ≤ j ∧ j < (len : ℤ) then some j.toNat else none

/-- Python `xs[i]` read. -/
def pyGet {α : Type} (xs : List α) (i : ℤ) : Option α :=
  (pyIdx xs.length i).bind (fun k => xs.get? k)

/-- Python `xs[i] = v` in-place list assignment (returning the new list). -/
def pySet {α : Type} (xs : List α) (i : ℤ) (v : α) : Option (List α) :=
  (pyIdx xs.length i).map (fun k => xs.set k v)

/-- Embeds `arduino_map` from the source (line 26): linear range mapping. -/
def arduino_map (x inmin inmax outmin outmax : ℚ) : ℚ :=
  (x - inmin) * (outmax - outmin) / (inmax - inmin) + outmin

/-- Embeds `RCChan` (line 30): one channel calibration. Defaults from `__init__`:
`min = 1000`, `max = 2000`, `min_pos = -1.0`. -/
structure RCChan where
  name : String
  chan : ℤ
  min : ℚ := 1000
  max : ℚ := 2000
  min_pos : ℚ := -1
  deriving DecidableEq

/-- Embeds `RCChan.calc_us` (line 43): map a logical position in
`[min_pos, 1.0]` to a pulse width in `[min, max]`. -/
def RCChan.calc_us (c : RCChan) (pos : ℚ) : ℚ :=
  arduino_map pos c.min_pos 1 c.min c.max

/-- A joystick sample (`sensor_msgs/Joy`): float axes plus integer buttons. -/
structure Joy where
  axes : List ℚ
  buttons : List ℤ
  deriving DecidableEq

/-- Embeds `RCMode` (line 47): an overlay forcing `rc_channel` to `rc_value`
whenever every `(button, flag)` pair of `joy_flags` matches the sample. -/
structure RCMode where
  name : String
  joy_flags : List (ℤ × ℤ)
  rc_channel : ℤ
  rc_value : ℚ
  deriving DecidableEq

/-- Loop body of `RCMode.is_toggled` (lines 60-64): walk the trigger pairs
in order; a mismatch returns `False` at once (later pairs are not read);
reading an out-of-range button index raises IndexError. -/
def is_toggled_flags (buttons : List ℤ) : List (ℤ × ℤ) → Option Bool
  | [] => some true
  | (btn, flag) :: rest =>
    match pyGet buttons btn with
    | none => none
    | some b => if b ≠ flag then some false else is_toggled_flags buttons rest

/-- Embeds `RCMode.is_toggled` (line 60). -/
def RCMode.is_toggled (m : RCMode) (j : Joy) : Option Bool :=
  is_toggled_flags j.buttons m.joy_flags

/-- Embeds `RCMode.apply_mode` (line 66): if toggled, write `rc_value` into the
frame at `rc_channel`; otherwise leave the frame unchanged. -/
def RCMode.apply_mode (m : RCMode) (j : Joy) (rc : List ℚ) : Option (List ℚ) :=
  match m.is_toggled j with
  | none => none
  | some true => pySet rc m.rc_channel m.rc_value
  | some false => some rc

/-- The four logical axis names. -/
inductive AxisName : Type
  | roll | pitch | yaw | throttle
  deriving DecidableEq, Fintype

/-- The five logical button names (line 86). -/
inductive ButtonName : Type
  | arm | disarm | takeoff | land | enable
  deriving DecidableEq

/-- The `axes_map` dict shape: logical axis name to source axis index. -/
structure AxesMap where
  roll : ℤ
  pitch : ℤ
  yaw : ℤ
  throttle : ℤ
  deriving DecidableEq

def AxesMap.get (m : AxesMap) : AxisName → ℤ
  | .roll => m.roll
  | .pitch => m.pitch
  | .yaw => m.yaw
  | .throttle => m.throttle

/-- The `axes_scale` dict shape. -/
structure AxesScale where
  roll : ℚ
  pitch : ℚ
  yaw : ℚ
  throttle : ℚ
  deriving DecidableEq

def AxesScale.get (m : AxesScale) : AxisName → ℚ
  | .roll => m.roll
  | .pitch => m.pitch
  | .yaw => m.yaw
  | .throttle => m.throttle

/-- The `button_map` dict shape. -/
structure ButtonMap where
  arm : ℤ
  disarm : ℤ
  takeoff : ℤ
  land : ℤ
  enable : ℤ
  deriving DecidableEq

def ButtonMap.get (m : ButtonMap) : ButtonName → ℤ
  | .arm => m.arm
  | .disarm => m.disarm
  | .takeoff => m.takeoff
  | .land => m.land
  | .enable => m.enable

/-- Embeds the `axes_map` module-level default (line 71): Mode 2 on a Logitech F710. -/
def axes_map : AxesMap := { roll := 3, pitch := 4, yaw := 0, throttle := 1 }

/-- Embeds the `axes_scale` module-level default (line 78). -/
def axes_scale : AxesScale := { roll := 1, pitch := 1, yaw := 1, throttle := 1 }

/-- Embeds the `button_map` module-level default (line 86). -/
def button_map : ButtonMap :=
  { arm := 0, disarm := 1, takeoff := 2, land := 3, enable := 4 }

/-- Embeds the `rc_channels` module-level dict (line 95). -/
def rc_channels : AxisName → RCChan
  | .roll => { name := "roll", chan := 0 }
  | .pitch => { name := "pitch", chan := 1 }
  | .yaw => { name := "yaw", chan := 3 }
  | .throttle => { name := "throttle", chan := 2, min_pos := 0 }

/-- Embeds `load_map` (line 114) applied to `axes_map`: each entry is replaced by
the parameter-store value when present, else keeps its current value.
Loading never fails and performs no range validation. -/
def load_map_axes (m : AxesMap) (store : AxisName → Option ℤ) : AxesMap :=
  { roll := (store .roll).getD m.roll
    pitch := (store .pitch).getD m.pitch
    yaw := (store .yaw).getD m.yaw
    throttle := (store .throttle).getD m.throttle }

/-- Embeds `load_map` (line 114) applied to `button_map`. -/
def load_map_buttons (m : ButtonMap) (store : ButtonName → Option ℤ) : ButtonMap :=
  { arm := (store .arm).getD m.arm
    disarm := (store .disarm).getD m.disarm
    takeoff := (store .takeoff).getD m.takeoff
    land := (store .land).getD m.land
    enable := (store .enable).getD m.enable }

/-- Embeds `get_axis` (line 119): `j.axes[axes_map[n]] * axes_scale[n]`. -/
def get_axis (am : AxesMap) (sc : AxesScale) (j : Joy) (n : AxisName) : Option ℚ :=
  (pyGet j.axes (am.get n)).map (fun a => a * sc.get n)

/-- Embeds `get_buttons` (line 122): `j.buttons[button_map[n]]`. -/
def get_buttons (bm : ButtonMap) (j : Joy) (n : ButtonName) : Option ℤ :=
  pyGet j.buttons (bm.get n)

/-- Module-level identifiers referenced by `arm` that are defined nowhere
in the module (nor imported): dereferencing them raises NameError. -/
inductive UndefName : Type
  | fault
  | ret
  deriving DecidableEq

/-- Python runtime errors the embedded code can raise. -/
inductive PyError : Type
  | indexError
  | nameError (missing : UndefName)
  deriving DecidableEq

/-- Embeds `arm` (line 102). The `command.arming(value=state)` call is issued, then
both continuations dereference names that are not defined anywhere in the
module: the `except` handler calls `fault(ex)` and the fall-through status
check reads `ret.success` (`ret` is never assigned). So after issuing the
command the function raises NameError on every path. `svcRaises` models
whether `command.arming` raised `rospy.ServiceException`. -/
def arm (svcRaises : Bool) (state : Bool) : Except PyError Unit :=
  if svcRaises then Except.error (PyError.nameError UndefName.fault)
  else Except.error (PyError.nameError UndefName.ret)

/-- Throttle renormalization chosen at start-up in
`attitude_setpoint_control` (lines 179-184): identity when the
reverse-throttle parameter is set, else `arduino_map(v, -1, 1, 0, 1)`. -/
def thd_normalize (reverse : Bool) (v : ℚ) : ℚ :=
  if reverse then v else arduino_map v (-1) 1 0 1

/-- What the attitude-mode callback publishes on success: the Euler angles
handed to `quaternion_from_euler` for the pose orientation, and the scalar
throttle. -/
structure AttSetpoint where
  orientation_euler : ℚ × ℚ × ℚ
  throttle : ℚ
  deriving DecidableEq

/-- Embeds `joy_cb` of `attitude_setpoint_control` (lines 186-206). Returns the
list of arming values issued to `command.arming` (in order) paired with the
outcome: the published setpoint, or the Python exception that aborted the
callback. -/
def attitude_joy_cb (am : AxesMap) (sc : AxesScale) (bm : ButtonMap)
    (reverse svcRaises : Bool) (j : Joy) :
    List Bool × Except PyError AttSetpoint :=
  match get_axis am sc j .roll, get_axis am sc j .pitch,
        get_axis am sc j .yaw, get_axis am sc j .throttle with
  | some roll, some pitch, some yaw, some thr =>
    let throttle := thd_normalize reverse thr
    match get_buttons bm j .arm with
    | none => ([], Except.error PyError.indexError)
    | some a =>
      if a = 1 then
        match arm svcRaises true with
        | Except.error e => ([true], Except.error e)
        | Except.ok _ => ([true], Except.ok ⟨(roll, pitch, yaw), throttle⟩)
      else
        match get_buttons bm j .disarm with
        | none => ([], Except.error PyError.indexError)
        | some d =>
          if d = 1 then
            match arm svcRaises false with
            | Except.error e => ([false], Except.error e)
            | Except.ok _ => ([false], Except.ok ⟨(roll, pitch, yaw), throttle⟩)
          else ([], Except.ok ⟨(roll, pitch, yaw), throttle⟩)
  | _, _, _, _ => ([], Except.error PyError.indexError)

/-- What the velocity-mode callback publishes: `twist.linear` and
`twist.angular` as (x, y, z) triples. -/
structure TwistSetpoint where
  linear : ℚ × ℚ × ℚ
  angular : ℚ × ℚ × ℚ
  deriving DecidableEq

/-- Embeds `joy_cb` of `velocity_setpoint_control` (lines 222-237): one twist per
sample, `linear = Vector3(x=roll, y=pitch, z=throttle)` with raw scaled
throttle, `angular = Vector3(z=yaw)`. -/
def velocity_joy_cb (am : AxesMap) (sc : AxesScale) (j : Joy) :
    Option TwistSetpoint :=
  match get_axis am sc j .roll, get_axis am sc j .pitch,
        get_axis am sc j .yaw, get_axis am sc j .throttle with
  | some roll, some pitch, some yaw, some throttle =>
    some ⟨(roll, pitch, throttle), (0, 0, yaw)⟩
  | _, _, _, _ => none

/-- The module-level integrator `px, py, pz` (line 244). -/
structure PosState where
  px : ℚ
  py : ℚ
  pz : ℚ
  deriving DecidableEq

/-- What the position-mode callback publishes: the pose position and the
Euler angles handed to `quaternion_from_euler` for its orientation. -/
structure PoseSetpoint where
  position : ℚ × ℚ × ℚ
  orientation_euler : ℚ × ℚ × ℚ
  deriving DecidableEq

/-- Embeds `joy_cb` of `position_setpoint_control` (lines 255-277): update the
integrator by `px -= pitch; py += roll; pz += throttle` and publish the
absolute position with orientation built from `(0, 0, yaw)`. -/
def position_joy_cb (am : AxesMap) (sc : AxesScale) (s : PosState) (j : Joy) :
    Option (PosState × PoseSetpoint) :=
  match get_axis am sc j .roll, get_axis am sc j .pitch,
        get_axis am sc j .yaw, get_axis am sc j .throttle with
  | some roll, some pitch, some yaw, some throttle =>
    let s2 : PosState := ⟨s.px - pitch, s.py + roll, s.pz + throttle⟩
    some (s2, ⟨(s2.px, s2.py, s2.pz), (0, 0, yaw)⟩)
  | _, _, _, _ => none

/-- Serialized delivery of consecutive samples to the position callback
(the middleware dispatch loop): thread the integrator through. -/
def position_run (am : AxesMap) (sc : AxesScale) :
    PosState → List Joy → Option PosState
  | s, [] => some s
  | s, j :: rest =>
    match position_joy_cb am sc s j with
    | none => none
    | some (s2, _) => position_run am sc s2 rest

/-- Embeds `set_chan` inside `rc_override_control.joy_cb` (lines 148-151):
`rc.channels[ch.chan] = ch.calc_us(v)`. -/
def set_chan (chans : AxisName → RCChan) (rc : List ℚ) (n : AxisName)
    (v : ℚ) : Option (List ℚ) :=
  pySet rc (chans n).chan ((chans n).calc_us v)

/-- The `for m in rc_modes: m.apply_mode(joy, rc)` loop (line 159). -/
def apply_modes (j : Joy) : List RCMode → List ℚ → Option (List ℚ)
  | [], rc => some rc
  | m :: rest, rc =>
    match m.apply_mode j rc with
    | none => none
    | some rc2 => apply_modes j rest rc2

/-- The `rc = OverrideRCIn()` frame created once (line 135): eight channels,
mutated in place by every sample thereafter. -/
def override_rc_init : List ℚ := List.replicate 8 0

/-- A parameter store assigning source axis index 5 to roll and leaving the
other axes unset (example configuration). -/
def store_roll5 : AxisName → Option ℤ := fun n =>
  match n with
  | .roll => some 5
  | _ => none

/-- Example overlay: trigger `[(0, 1)]`, target channel 2, forced value
1500 (the overlay of spec §8). -/
def mode_ex : RCMode :=
  { name := "ov", joy_flags := [(0, 1)], rc_channel := 2, rc_value := 1500 }

/-- Example overlay targeting channel 6 with forced value 1800. -/
def mode_ex2 : RCMode :=
  { name := "ov2", joy_flags := [(0, 1)], rc_channel := 6, rc_value := 1800 }

/-- Example frame with all eight channels at 1000. -/
def rc8 : List ℚ := [1000, 1000, 1000, 1000, 1000, 1000, 1000, 1000]

/-- Example frame state after a previous sample. -/
def rc_in : List ℚ := [1100, 1100, 1100, 1100, 1100, 0, 0, 0]

/-- The frame `rc_in` becomes after one centered-stick sample (all four
calibrated channels rewritten to 1500, channel 4 untouched). -/
def rc_out : List ℚ := [1500, 1500, 1500, 1500, 1100, 0, 0, 0]

/-- Embeds `joy_cb` of `rc_override_control` (lines 139-162) as a transformer of
the persistent frame: read the four axes, renormalize throttle to [0, 1],
write the four calibrated channels into the frame, then run the overlays;
the result is the frame as published (and as kept for the next sample). -/
def rc_override_joy_cb (am : AxesMap) (sc : AxesScale)
    (chans : AxisName → RCChan) (modes : List RCMode) (rc : List ℚ)
    (j : Joy) : Option (List ℚ) :=
  Option.bind (get_axis am sc j .roll) (fun roll =>
  Option.bind (get_axis am sc j .pitch) (fun pitch =>
  Option.bind (get_axis am sc j .yaw) (fun yaw =>
  Option.bind (get_axis am sc j .throttle) (fun thr =>
  Option.bind (set_chan chans rc .roll roll) (fun rc1 =>
  Option.bind (set_chan chans rc1 .pitch pitch) (fun rc2 =>
  Option.bind (set_chan chans rc2 .yaw yaw) (fun rc3 =>
  Option.bind (set_chan chans rc3 .throttle (arduino_map thr (-1) 1 0 1))
    (fun rc4 => apply_modes j modes rc4))))))))

/-! ## Theorems -/

/-- C6: in attitude-setpoint mode, with reverse-throttle=false a raw scaled
throttle of -1 normalizes to 0 and 1 normalizes to 1, and the map is linear
in between; with reverse-throttle=true the raw value passes through
unchanged. -/
theorem c6_thd_normalize :
    thd_normalize false (-1) = 0 ∧ thd_normalize false 1 = 1
    ∧ (∀ a b t : ℚ, thd_normalize false ((1 - t) * a + t * b)
        = (1 - t) * thd_normalize false a + t * thd_normalize false b)
    ∧ (∀ v : ℚ, thd_normalize true v = v) := by
  refine ⟨by norm_num [thd_normalize, arduino_map],
    by norm_num [thd_normalize, arduino_map], ?_, fun v => rfl⟩
  intro a b t
  simp only [thd_normalize, arduino_map, Bool.false_eq_true, if_false]
  ring

/-- C7: applying `arduino_map` with the ranges swapped to the result of
`arduino_map` recovers the input exactly over the rationals, whenever
`in_min < in_max` and `out_min < out_max`. -/
theorem c7_arduino_map_round_trip (x inmin inmax outmin outmax : ℚ)
    (h1 : inmin < inmax) (h2 : outmin < outmax) :
    arduino_map (arduino_map x inmin inmax outmin outmax)
      outmin outmax inmin inmax = x := by
  have hi : inmax - inmin ≠ 0 := sub_ne_zero.mpr (ne_of_gt h1)
  have ho : outmax - outmin ≠ 0 := sub_ne_zero.mpr (ne_of_gt h2)
  unfold arduino_map
  field_simp
  ring

/-- Witness for C7 at x = 5, input range [0, 2], output range [10, 30]. -/
theorem c7_witness :
    (0:ℚ) < 2 ∧ (10:ℚ) < 30
    ∧ arduino_map (arduino_map 5 0 2 10 30) 10 30 0 2 = 5 :=
  ⟨by norm_num, by norm_num,
    c7_arduino_map_round_trip 5 0 2 10 30 (by norm_num) (by norm_num)⟩

/-- C8: with `max > min` and `min_pos < 1`, `calc_us` is monotonic
non-decreasing, and it sends input 1 to `max` and input `min_pos` to `min`
(so with the defaults 1000/2000 it sends 1 to 2000 and `min_pos` to
1000). -/
theorem c8_calc_us_monotone (c : RCChan) (hmm : c.min < c.max)
    (hmp : c.min_pos < 1) :
    (∀ a b : ℚ, a ≤ b → c.calc_us a ≤ c.calc_us b)
    ∧ c.calc_us 1 = c.max ∧ c.calc_us c.min_pos = c.min := by
  have hd : (0:ℚ) < 1 - c.min_pos := by linarith
  refine ⟨?_, ?_, ?_⟩
  · intro a b hab
    unfold RCChan.calc_us arduino_map
    have hnum : (a - c.min_pos) * (c.max - c.min)
        ≤ (b - c.min_pos) * (c.max - c.min) :=
      mul_le_mul_of_nonneg_right (by linarith) (by linarith)
    have hdiv : (a - c.min_pos) * (c.max - c.min) / (1 - c.min_pos)
        ≤ (b - c.min_pos) * (c.max - c.min) / (1 - c.min_pos) :=
      (div_le_div_iff_of_pos_right hd).mpr hnum
    linarith
  · unfold RCChan.calc_us arduino_map
    have hne : (1:ℚ) - c.min_pos ≠ 0 := ne_of_gt hd
    field_simp
  · unfold RCChan.calc_us arduino_map
    simp

/-- Witness for C8 at the default roll channel (min 1000, max 2000,
min_pos -1). -/
theorem c8_witness :
    (rc_channels AxisName.roll).min < (rc_channels AxisName.roll).max
    ∧ (rc_channels AxisName.roll).calc_us 1 = (rc_channels AxisName.roll).max
    ∧ (rc_channels AxisName.roll).calc_us (rc_channels AxisName.roll).min_pos
        = (rc_channels AxisName.roll).min := by
  have h := c8_calc_us_monotone (rc_channels AxisName.roll)
    (by norm_num [rc_channels]) (by norm_num [rc_channels])
  exact ⟨by norm_num [rc_channels], h.2.1, h.2.2⟩

/-- C9: in velocity-setpoint mode, each sample for which the four axis reads
succeed yields exactly one twist whose linear part is (roll, pitch,
throttle) with throttle raw (no unipolar renormalization) and whose angular
part is (0, 0, yaw). -/
theorem c9_velocity_twist (am : AxesMap) (sc : AxesScale) (j : Joy)
    (roll pitch yaw throttle : ℚ)
    (hr : get_axis am sc j .roll = some roll)
    (hp : get_axis am sc j .pitch = some pitch)
    (hy : get_axis am sc j .yaw = some yaw)
    (ht : get_axis am sc j .throttle = some throttle) :
    velocity_joy_cb am sc j = some ⟨(roll, pitch, throttle), (0, 0, yaw)⟩ := by
  simp [velocity_joy_cb, hr, hp, hy, ht]

/-- Witness for C9 at axes [1, 2, 0, 4, 5] under the default maps:
roll = 4, pitch = 5, yaw = 1, throttle = 2. -/
theorem c9_witness :
    velocity_joy_cb axes_map axes_scale ⟨[1, 2, 0, 4, 5], []⟩
      = some ⟨(4, 5, 2), (0, 0, 1)⟩ :=
  c9_velocity_twist axes_map axes_scale ⟨[1, 2, 0, 4, 5], []⟩ 4 5 1 2
    (by simp [get_axis, pyGet, pyIdx, axes_map, axes_scale, AxesMap.get,
      AxesScale.get])
    (by simp [get_axis, pyGet, pyIdx, axes_map, axes_scale, AxesMap.get,
      AxesScale.get])
    (by simp [get_axis, pyGet, pyIdx, axes_map, axes_scale, AxesMap.get,
      AxesScale.get])
    (by simp [get_axis, pyGet, pyIdx, axes_map, axes_scale, AxesMap.get,
      AxesScale.get])

/-- C10: in attitude-setpoint mode, when both the arm and the disarm
logical buttons read 1 (and the axis reads succeed), only the arm command
is issued to the arming service; the disarm command is suppressed by the
if/elif chain. -/
theorem c10_arm_precedence (am : AxesMap) (sc : AxesScale) (bm : ButtonMap)
    (reverse svcRaises : Bool) (j : Joy) (roll pitch yaw thr : ℚ)
    (hr : get_axis am sc j .roll = some roll)
    (hp : get_axis am sc j .pitch = some pitch)
    (hy : get_axis am sc j .yaw = some yaw)
    (ht : get_axis am sc j .throttle = some thr)
    (ha : get_buttons bm j .arm = some 1)
    (hd : get_buttons bm j .disarm = some 1) :
    (attitude_joy_cb am sc bm reverse svcRaises j).1 = [true] := by
  cases svcRaises <;>
    simp [attitude_joy_cb, hr, hp, hy, ht, ha, arm]

/-- Witness for C10: both buttons pressed on the default button map. -/
theorem c10_witness :
    (attitude_joy_cb axes_map axes_scale button_map false false
      ⟨[0, 0, 0, 0, 0], [1, 1, 0, 0, 0]⟩).1 = [true] :=
  c10_arm_precedence axes_map axes_scale button_map false false
    ⟨[0, 0, 0, 0, 0], [1, 1, 0, 0, 0]⟩ 0 0 0 0
    (by simp [get_axis, pyGet, pyIdx, axes_map, axes_scale, AxesMap.get,
      AxesScale.get])
    (by simp [get_axis, pyGet, pyIdx, axes_map, axes_scale, AxesMap.get,
      AxesScale.get])
    (by simp [get_axis, pyGet, pyIdx, axes_map, axes_scale, AxesMap.get,
      AxesScale.get])
    (by simp [get_axis, pyGet, pyIdx, axes_map, axes_scale, AxesMap.get,
      AxesScale.get])
    (by decide) (by decide)

/-- C1: evaluating the attitude-mode callback at samples that press the arm
(resp. disarm) button. Because `arm` dereferences the undefined module
names `ret` (normal path) and `fault` (exception path), the callback is
aborted by a NameError instead of logging the command outcome and
completing normally. -/
theorem c1_arm_name_error :
    attitude_joy_cb axes_map axes_scale button_map false false
        ⟨[0, 0, 0, 0, 0], [1, 0, 0, 0, 0]⟩
      = ([true], Except.error (PyError.nameError UndefName.ret))
    ∧ attitude_joy_cb axes_map axes_scale button_map false true
        ⟨[0, 0, 0, 0, 0], [1, 0, 0, 0, 0]⟩
      = ([true], Except.error (PyError.nameError UndefName.fault))
    ∧ attitude_joy_cb axes_map axes_scale button_map false false
        ⟨[0, 0, 0, 0, 0], [0, 1, 0, 0, 0]⟩
      = ([false], Except.error (PyError.nameError UndefName.ret)) := by
  refine ⟨rfl, rfl, rfl⟩

/-- C3: in position-setpoint mode every successful sample updates the
integrator by `x -= pitch; y += roll; z += throttle` with no time
weighting, and the emitted pose carries the updated absolute position with
orientation built from (0, 0, yaw) only; in particular three consecutive
samples with pitch = 1, roll = 0, throttle = 0 move (0,0,0) to (-3,0,0). -/
theorem c3_position_integrator :
    (∀ (am : AxesMap) (sc : AxesScale) (s : PosState) (j : Joy)
        (roll pitch yaw throttle : ℚ),
      get_axis am sc j .roll = some roll →
      get_axis am sc j .pitch = some pitch →
      get_axis am sc j .yaw = some yaw →
      get_axis am sc j .throttle = some throttle →
      position_joy_cb am sc s j
        = some (⟨s.px - pitch, s.py + roll, s.pz + throttle⟩,
            ⟨(s.px - pitch, s.py + roll, s.pz + throttle), (0, 0, yaw)⟩))
    ∧ position_run axes_map axes_scale ⟨0, 0, 0⟩
        (List.replicate 3 ⟨[0, 0, 0, 0, 1], []⟩) = some ⟨-3, 0, 0⟩ := by
  constructor
  · intro am sc s j roll pitch yaw throttle hr hp hy ht
    simp [position_joy_cb, hr, hp, hy, ht]
  · simp [position_run, position_joy_cb, get_axis, pyGet, pyIdx,
      axes_map, axes_scale, AxesMap.get, AxesScale.get, List.replicate]
    norm_num

/-- Witness for C3's per-sample clause at one concrete sample. -/
theorem c3_witness :
    position_joy_cb axes_map axes_scale ⟨0, 0, 0⟩ ⟨[0, 0, 0, 0, 1], []⟩
      = some (⟨0 - 1, 0 + 0, 0 + 0⟩, ⟨(0 - 1, 0 + 0, 0 + 0), (0, 0, 0)⟩) :=
  c3_position_integrator.1 axes_map axes_scale ⟨0, 0, 0⟩ ⟨[0, 0, 0, 0, 1], []⟩
    0 1 0 0
    (by simp [get_axis, pyGet, pyIdx, axes_map, axes_scale, AxesMap.get,
      AxesScale.get])
    (by simp [get_axis, pyGet, pyIdx, axes_map, axes_scale, AxesMap.get,
      AxesScale.get])
    (by simp [get_axis, pyGet, pyIdx, axes_map, axes_scale, AxesMap.get,
      AxesScale.get])
    (by simp [get_axis, pyGet, pyIdx, axes_map, axes_scale, AxesMap.get,
      AxesScale.get])

/-- C2 counterexample: configuring roll's source axis index as 5 loads
without any error (`load_map` has no failure path and performs no range
check), and the per-sample read of roll on a five-axis sample then raises
IndexError — refuting detection at configuration-load time before any
input sample is processed. -/
theorem c2_counterexample :
    load_map_axes axes_map store_roll5
      = { roll := 5, pitch := 4, yaw := 0, throttle := 1 }
    ∧ get_axis (load_map_axes axes_map store_roll5) axes_scale
        ⟨[0, 0, 0, 0, 0], []⟩ AxisName.roll = none := by
  constructor
  · rfl
  · simp [get_axis, pyGet, pyIdx, load_map_axes, axes_map, store_roll5,
      AxesMap.get]

/-- C2 amended: loading the axis/button maps never fails and performs no
range validation; an out-of-range configured source index instead surfaces
per-sample, as an IndexError from `get_axis`/`get_buttons`. -/
theorem c2_oob_index_is_per_sample (base : AxesMap)
    (store : AxisName → Option ℤ) (bbase : ButtonMap)
    (bstore : ButtonName → Option ℤ) (sc : AxesScale) (j : Joy)
    (n : AxisName) (bn : ButtonName)
    (hn : pyIdx j.axes.length ((load_map_axes base store).get n) = none)
    (hbn : pyIdx j.buttons.length
      ((load_map_buttons bbase bstore).get bn) = none) :
    get_axis (load_map_axes base store) sc j n = none
    ∧ get_buttons (load_map_buttons bbase bstore) j bn = none := by
  constructor
  · simp [get_axis, pyGet, hn]
  · simp [get_buttons, pyGet, hbn]

/-- Witness for C2's amended claim: roll index 5 against 5 axes, arm index
9 against 1 button. -/
theorem c2_witness :
    get_axis (load_map_axes axes_map store_roll5) axes_scale
        ⟨[0, 0, 0, 0, 0], [0]⟩ AxisName.roll = none
    ∧ get_buttons (load_map_buttons button_map (fun _ => some 9))
        ⟨[0, 0, 0, 0, 0], [0]⟩ ButtonName.arm = none :=
  c2_oob_index_is_per_sample axes_map store_roll5 button_map
    (fun _ => some 9) axes_scale ⟨[0, 0, 0, 0, 0], [0]⟩
    AxisName.roll ButtonName.arm (by decide) (by decide)

/-- With every trigger pair's button index readable, the overlay trigger
walk returns the conjunction of the individual matches. -/
theorem is_toggled_flags_all (buttons : List ℤ) (fl : List (ℤ × ℤ))
    (h : ∀ p ∈ fl, (pyGet buttons p.1).isSome = true) :
    is_toggled_flags buttons fl
      = some (fl.all (fun p => pyGet buttons p.1 == some p.2)) := by
  induction fl with
  | nil => simp [is_toggled_flags]
  | cons hd tl ih =>
    obtain ⟨btn, flag⟩ := hd
    obtain ⟨b, hb⟩ := Option.isSome_iff_exists.mp
      (h (btn, flag) (List.mem_cons_self _ _))
    have htl := ih (fun p hp => h p (List.mem_cons_of_mem _ hp))
    by_cases hbf : b = flag
    · subst hbf
      simp [is_toggled_flags, hb, htl]
    · simp [is_toggled_flags, hb, hbf]

/-- C4: when every trigger pair's button index is readable and the target
channel resolves to position k, the overlay fires iff every
(button-index, required-state) pair matches the sample; firing forces the
target channel to the overlay's value, not firing leaves the frame
unchanged. -/
theorem c4_overlay_fire (m : RCMode) (j : Joy) (rc : List ℚ) (k : ℕ)
    (hbtns : ∀ p ∈ m.joy_flags, (pyGet j.buttons p.1).isSome = true)
    (htgt : pyIdx rc.length m.rc_channel = some k) :
    (m.is_toggled j = some true
      ↔ ∀ p ∈ m.joy_flags, pyGet j.buttons p.1 = some p.2)
    ∧ m.apply_mode j rc
      = (if ∀ p ∈ m.joy_flags, pyGet j.buttons p.1 = some p.2
          then some (rc.set k m.rc_value) else some rc) := by
  have hall := is_toggled_flags_all j.buttons m.joy_flags hbtns
  constructor
  · rw [RCMode.is_toggled, hall]
    simp [List.all_eq_true]
  · by_cases hP : ∀ p ∈ m.joy_flags, pyGet j.buttons p.1 = some p.2
    · have htrue : m.joy_flags.all
          (fun p => pyGet j.buttons p.1 == some p.2) = true := by
        simp only [List.all_eq_true, beq_iff_eq]
        exact fun p hp => hP p hp
      rw [RCMode.apply_mode, RCMode.is_toggled, hall, htrue, if_pos hP]
      simp [pySet, htgt]
    · have hfalse : m.joy_flags.all
          (fun p => pyGet j.buttons p.1 == some p.2) = false := by
        refine Bool.eq_false_iff.mpr (fun hx => hP ?_)
        intro p hp
        simpa using List.all_eq_true.mp hx p hp
      rw [RCMode.apply_mode, RCMode.is_toggled, hall, hfalse, if_neg hP]

/-- Witness for C4: the overlay {trigger [(0,1)], channel 2, value 1500}
against a sample with button 0 pressed, on an all-1000 frame. -/
theorem c4_witness :
    (mode_ex.is_toggled ⟨[], [1]⟩ = some true
      ↔ ∀ p ∈ mode_ex.joy_flags, pyGet (Joy.buttons ⟨[], [1]⟩) p.1 = some p.2)
    ∧ mode_ex.apply_mode ⟨[], [1]⟩ rc8
      = (if ∀ p ∈ mode_ex.joy_flags, pyGet (Joy.buttons ⟨[], [1]⟩) p.1 = some p.2
          then some (rc8.set 2 mode_ex.rc_value) else some rc8) :=
  c4_overlay_fire mode_ex ⟨[], [1]⟩ rc8 2 (by decide) (by decide)

/-- A successful Python list assignment resolves the index and sets it. -/
theorem pySet_eq_some {α : Type} {xs ys : List α} {i : ℤ} {v : α}
    (h : pySet xs i v = some ys) :
    ∃ k, pyIdx xs.length i = some k ∧ ys = xs.set k v := by
  unfold pySet at h
  cases hk : pyIdx xs.length i with
  | none => rw [hk] at h; exact absurd h (by simp)
  | some k =>
    rw [hk] at h
    exact ⟨k, rfl, (Option.some_injective _ h).symm⟩

/-- In-place assignment preserves the frame's channel count. -/
theorem pySet_length {α : Type} {xs ys : List α} {i : ℤ} {v : α}
    (h : pySet xs i v = some ys) : ys.length = xs.length := by
  obtain ⟨k, -, rfl⟩ := pySet_eq_some h
  simp

/-- In-place assignment leaves every other position unchanged. -/
theorem pySet_getElem_other {α : Type} {xs ys : List α} {i : ℤ} {v : α}
    {c : ℕ} (h : pySet xs i v = some ys)
    (hc : pyIdx xs.length i ≠ some c) : ys[c]? = xs[c]? := by
  obtain ⟨k, hk, rfl⟩ := pySet_eq_some h
  refine List.getElem?_set_ne (fun he => hc ?_)
  rw [← he]
  exact hk

/-- A channel calibration write leaves every other channel unchanged. -/
theorem set_chan_other {chans : AxisName → RCChan} {rc rc2 : List ℚ}
    {n : AxisName} {v : ℚ} {c : ℕ}
    (h : set_chan chans rc n v = some rc2)
    (hc : pyIdx rc.length (chans n).chan ≠ some c) :
    rc2[c]? = rc[c]? ∧ rc2.length = rc.length := by
  unfold set_chan at h
  exact ⟨pySet_getElem_other h hc, pySet_length h⟩

/-- The overlay loop leaves a channel unchanged when every overlay either
does not fire or targets a different resolved channel. -/
theorem apply_modes_other (j : Joy) (c : ℕ) :
    ∀ (modes : List RCMode) (rc rc2 : List ℚ),
      apply_modes j modes rc = some rc2 →
      (∀ m ∈ modes, m.is_toggled j = some false
        ∨ pyIdx rc.length m.rc_channel ≠ some c) →
      rc2[c]? = rc[c]? ∧ rc2.length = rc.length := by
  intro modes
  induction modes with
  | nil =>
    intro rc rc2 h _
    rw [apply_modes] at h
    rw [Option.some_injective _ h]
    exact ⟨rfl, rfl⟩
  | cons m rest ih =>
    intro rc rc2 h hm
    rw [apply_modes] at h
    cases ha : m.apply_mode j rc with
    | none => rw [ha] at h; exact absurd h (by simp)
    | some rcm =>
      rw [ha] at h
      have hstep : rcm[c]? = rc[c]? ∧ rcm.length = rc.length := by
        rw [RCMode.apply_mode] at ha
        cases ht : m.is_toggled j with
        | none => rw [ht] at ha; exact absurd ha (by simp)
        | some b =>
          rw [ht] at ha
          cases b with
          | false =>
            rw [Option.some_injective _ ha]
            exact ⟨rfl, rfl⟩
          | true =>
            rcases hm m (List.mem_cons_self _ _) with hf | hnc
            · rw [ht] at hf; exact absurd hf (by simp)
            · exact ⟨pySet_getElem_other ha hnc, pySet_length ha⟩
      have hrest := ih rcm rc2 h (fun m2 hm2 => by
        rcases hm m2 (List.mem_cons_of_mem _ hm2) with hf | hnc
        · exact Or.inl hf
        · rw [hstep.2]; exact Or.inr hnc)
      exact ⟨hrest.1.trans hstep.1, hrest.2.trans hstep.2⟩

/-- C5: in RC-override mode, for a callback run on the persistent frame,
any channel that is written neither by one of the four channel calibrations
nor by a firing overlay holds in the published frame exactly the value it
held after the previous sample. -/
theorem c5_untouched_channel_persists (am : AxesMap) (sc : AxesScale)
    (chans : AxisName → RCChan) (modes : List RCMode) (rc rc2 : List ℚ)
    (j : Joy) (c : ℕ)
    (hrun : rc_override_joy_cb am sc chans modes rc j = some rc2)
    (hcal : ∀ n : AxisName, pyIdx rc.length (chans n).chan ≠ some c)
    (hmod : ∀ m ∈ modes, m.is_toggled j = some false
      ∨ pyIdx rc.length m.rc_channel ≠ some c) :
    rc2[c]? = rc[c]? := by
  unfold rc_override_joy_cb at hrun
  simp only [Option.bind_eq_some] at hrun
  obtain ⟨roll, -, pitch, -, yaw, -, thr, -, rca, ha, rcb, hb, rcc, hc2,
    rcd, hd2, hmods⟩ := hrun
  have s1 := set_chan_other ha (hcal .roll)
  have s2 := set_chan_other hb (by rw [s1.2]; exact hcal .pitch)
  have s3 := set_chan_other hc2 (by rw [s2.2, s1.2]; exact hcal .yaw)
  have s4 := set_chan_other hd2 (by rw [s3.2, s2.2, s1.2]; exact hcal .throttle)
  have hmods2 := apply_modes_other j c modes rcd rc2 hmods (fun m hm => by
    rcases hmod m hm with hf | hnc
    · exact Or.inl hf
    · rw [s4.2, s3.2, s2.2, s1.2]; exact Or.inr hnc)
  rw [hmods2.1, s4.1, s3.1, s2.1, s1.1]

/-- Witness for C5: channel 4 (not calibrated, not overlaid) keeps value
1100 across a sample; the four calibrated channels move to 1500. -/
theorem c5_witness : rc_out[4]? = rc_in[4]? :=
  c5_untouched_channel_persists axes_map axes_scale rc_channels [mode_ex2]
    rc_in rc_out ⟨[0, 0, 0, 0, 0], [0]⟩ 4
    (by
      simp [rc_override_joy_cb, get_axis, pyGet, pySet, pyIdx, set_chan,
        apply_modes, RCMode.apply_mode, RCMode.is_toggled, is_toggled_flags,
        mode_ex2, rc_channels, RCChan.calc_us, arduino_map, axes_map,
        axes_scale, AxesMap.get, AxesScale.get, rc_in, rc_out, List.set]
      norm_num)
    (by decide) (by decide)

end Mavteleop
